import Mathlib

/-!
Shallow embedding of the SMARTS adapter of atmosrt (`atmosrt/smarts.py`)
and proofs about its error classification, parameter translation, card
formatting and output parsing.

Python floats are modelled exactly over `ℚ`; Python exceptions are modelled
by an explicit error type carried in `Except`.
-/

/-- Module constant `input_file = 'smarts295.inp.txt'` of `smarts.py`. -/
def input_file : String := "smarts295.inp.txt"

/-- Module constant `command = 'smarts.py'` of `smarts.py`. -/
def command : String := "smarts.py"

/-- Module constant `output_file = 'smarts295.ext.txt'` of `smarts.py`. -/
def output_file : String := "smarts295.ext.txt"

/-- Module constant `output_log = 'log.txt'` of `smarts.py`. -/
def output_log : String := "log.txt"

/-- Module constant `output_headers = 1` of `smarts.py`. -/
def output_headers : Nat := 1

/-- File name the ERROR scan of `SMARTS.run` reads:
`smlog = working.get('smarts295.out.txt')`. -/
def smLogName : String := "smarts295.out.txt"

/-- Command line built in `SMARTS.run`: `full_cmd = '%s > %s' % (command, output_log)`. -/
def full_cmd : String := command ++ " > " ++ output_log

/-- Python exception classes of the adapter.  `SunDownError` is declared as a
subclass of `SMARTSError`, which is declared as a subclass of `RTMError`.
`RTMError` itself lives in `atmosrt/_rtm.py` (not under `src/`); it is
modelled from the spec as the root of the error taxonomy. -/
inductive PyClass where
  | RTMError
  | SMARTSError
  | SunDownError
deriving DecidableEq

/-- Python `except`-clause semantics for the taxonomy above: a handler for a
class catches that class and all of its subclasses (first argument: the class
named in the handler, second: the class of the raised exception). -/
def catches : PyClass → PyClass → Bool
  | .RTMError, .RTMError => true
  | .RTMError, .SMARTSError => true
  | .RTMError, .SunDownError => true
  | .SMARTSError, .SMARTSError => true
  | .SMARTSError, .SunDownError => true
  | .SunDownError, .SunDownError => true
  | _, _ => false

/-- Fields of Python's `time.struct_time`, as returned by
`datetime.utctimetuple()` and consumed by the `time` conversion. -/
structure TimeTuple where
  tm_year : Int
  tm_mon : Int
  tm_mday : Int
  tm_hour : Int
  tm_min : Int
  tm_sec : Int
deriving DecidableEq

/-- Python values flowing through the translator and the card formatter.
Numbers (int and float alike) are modelled over `ℚ`, matching Python's `==`
across int/float. -/
inductive PVal where
  | str (s : String)
  | num (q : ℚ)
  | boolean (b : Bool)
  | time (tt : TimeTuple)
deriving DecidableEq

/-- Python exceptions the embedded code can raise.  `missingArg` models the
`TypeError` that the bare recursive call `addItem(d)` in `translate.addItem`
would raise (one required positional argument missing); `rtm cls msg` models
raising exception class `cls` with message `msg`. -/
inductive PyErr where
  | keyError (k : PVal)
  | typeError (msg : String)
  | missingArg
  | assertionError (msg : String)
  | rtm (cls : PyClass) (msg : String)
deriving DecidableEq

/-- Execution environment of one solver invocation: the exit code and captured
stderr returned by `working.run`, and the contents (as line lists) of the files
in the working directory, read by `working.get`. -/
structure ExecEnv where
  code : Int
  err : String
  files : String → List String

/-- Does `pat` occur as a prefix of `s`? -/
def subAt : List Char → List Char → Bool
  | [], _ => true
  | _ :: _, [] => false
  | p :: ps, c :: cs => p == c && subAt ps cs

/-- Python's substring test `pat in s`, on character lists. -/
def hasSubL (pat : List Char) : List Char → Bool
  | [] => subAt pat []
  | c :: cs => subAt pat (c :: cs) || hasSubL pat cs

/-- Python's substring test `pat in s` on strings. -/
def strHasSub (s pat : String) : Bool := hasSubL pat.data s.data

/-- Message of the exit-127 branch of `SMARTS.run`:
`"%d: SMARTS Executable not found. Did you install it correctly? stderr:\n%s" % (code, err)`. -/
def msgNotFound (code : Int) (err : String) : String :=
  toString code ++ ": SMARTS Executable not found. Did you install it correctly? stderr:\n" ++ err

/-- Message of the generic nonzero-exit branch of `SMARTS.run`:
`"%s: Execution failed with code %d. stderr:\n%s" % (working.path, code, err)`. -/
def msgExecFailed (path : String) (code : Int) (err : String) : String :=
  path ++ ": Execution failed with code " ++ toString code ++ ". stderr:\n" ++ err

/-- Message of the sun-below-horizon branch of `SMARTS.run`. -/
def msgSunDown (path line : String) : String :=
  path ++ ": smarts refuses to work when the sun is down.\n" ++ line

/-- Message of the generic solver-log-error branch of `SMARTS.run`. -/
def msgNoLike (path line : String) : String :=
  path ++ ": smarts no like\n" ++ line

/-- Literal scanned for in every log line. -/
def errMarker : String := "ERROR"

/-- Literal identifying the sun-below-horizon case. -/
def sunMarker : String := "** ERROR #7 ***"

/-- Log scan of `SMARTS.run`: iterate over the lines; on the first line
containing `'ERROR'`, raise `SunDownError` if it contains `'** ERROR #7 ***'`
and `SMARTSError` otherwise. -/
def scanLog (path : String) : List String → Except PyErr Unit
  | [] => .ok ()
  | line :: rest =>
    if strHasSub line errMarker then
      if strHasSub line sunMarker then
        .error (.rtm .SunDownError (msgSunDown path line))
      else
        .error (.rtm .SMARTSError (msgNoLike path line))
    else scanLog path rest

/-- Result classification of `SMARTS.run` after `working.run` returned:
exit code 127, then any other nonzero exit code, are classified from the code
alone; on exit code 0 the file `smarts295.out.txt` is scanned for errors. -/
def runClassify (path : String) (env : ExecEnv) : Except PyErr Unit :=
  if env.code = 127 then
    .error (.rtm .SMARTSError (msgNotFound env.code env.err))
  else if env.code ≠ 0 then
    .error (.rtm .SMARTSError (msgExecFailed path env.code env.err))
  else
    scanLog path (env.files smLogName)

/-- Exception class of a classification outcome, if it raised. -/
def errClassOf : Except PyErr Unit → Option PyClass
  | .error (.rtm cls _) => some cls
  | .error _ => none
  | .ok _ => none

/-- First log line containing `'ERROR'`. -/
def firstErrLine (lines : List String) : Option String :=
  lines.find? (fun l => strHasSub l errMarker)

theorem subAt_append (p rest : List Char) : subAt p (p ++ rest) = true := by
  induction p with
  | nil => rfl
  | cons c cs ih => simp [subAt, ih]

theorem hasSubL_head (p s : List Char) (h : subAt p s = true) : hasSubL p s = true := by
  cases s with
  | nil => simpa [hasSubL] using h
  | cons c cs => simp [hasSubL, h]

theorem hasSubL_parts (x y p : List Char) : hasSubL p (x ++ (p ++ y)) = true := by
  induction x with
  | nil => exact hasSubL_head _ _ (subAt_append p y)
  | cons c cs ih => simp [hasSubL, ih]

theorem strData_append (a b : String) : (a ++ b).data = a.data ++ b.data := rfl

theorem strHasSub_intro (s pat : String) (x y : List Char)
    (h : s.data = x ++ (pat.data ++ y)) : strHasSub s pat = true := by
  unfold strHasSub
  rw [h]
  exact hasSubL_parts _ _ _

/-- Specification of the log scan in terms of the first line containing
`'ERROR'`. -/
theorem scanLog_spec (path : String) (lines : List String) :
    (firstErrLine lines = none → scanLog path lines = .ok ()) ∧
    (∀ l, firstErrLine lines = some l →
      scanLog path lines =
        if strHasSub l sunMarker then .error (.rtm .SunDownError (msgSunDown path l))
        else .error (.rtm .SMARTSError (msgNoLike path l))) := by
  induction lines with
  | nil =>
    refine ⟨fun _ => rfl, fun l hl => ?_⟩
    simp [firstErrLine] at hl
  | cons a rest ih =>
    by_cases h : strHasSub a errMarker = true
    · refine ⟨fun hn => ?_, fun l hl => ?_⟩
      · simp [firstErrLine, List.find?, h] at hn
      · simp only [firstErrLine, List.find?, h] at hl
        cases hl
        simp [scanLog, h]
    · have h' : strHasSub a errMarker = false := by simpa using h
      refine ⟨fun hn => ?_, fun l hl => ?_⟩
      · simp only [firstErrLine, List.find?, h'] at hn
        simp only [scanLog, h', Bool.false_eq_true, if_false]
        exact ih.1 hn
      · simp only [firstErrLine, List.find?, h'] at hl
        simp only [scanLog, h', Bool.false_eq_true, if_false]
        exact ih.2 l hl

/-- C1, counterexample: three of the four failure outcomes of `run()` —
exit code 127, another nonzero exit code, and a generic solver-log error —
all raise the SAME exception class `SMARTSError`, differing only in their
message text, so the four outcomes are not mutually distinguishable kinds. -/
theorem run_error_kinds_cex :
    errClassOf (runClassify "w" ⟨127, "e", fun _ => []⟩) = some .SMARTSError ∧
    errClassOf (runClassify "w" ⟨1, "e", fun _ => []⟩) = some .SMARTSError ∧
    errClassOf (runClassify "w" ⟨0, "e", fun _ => ["ERROR"]⟩) = some .SMARTSError ∧
    runClassify "w" ⟨127, "e", fun _ => []⟩ = .error (.rtm .SMARTSError (msgNotFound 127 "e")) ∧
    runClassify "w" ⟨1, "e", fun _ => []⟩ = .error (.rtm .SMARTSError (msgExecFailed "w" 1 "e")) ∧
    msgNotFound 127 "e" ≠ msgExecFailed "w" 1 "e" :=
  ⟨rfl, rfl, rfl, rfl, rfl, by decide⟩

/-- C1, amended: only the sun-below-horizon outcome is a distinct catchable
error kind (`SunDownError`, a subclass of `SMARTSError`); executable-not-found,
generic execution failure and the generic solver-log error are all raised as
the same class `SMARTSError`, distinguishable only by message text.  A handler
for `SMARTSError` also catches `SunDownError`, but not conversely. -/
theorem run_error_kinds (path err : String) (files : String → List String) (code : Int) :
    (code = 127 → errClassOf (runClassify path ⟨code, err, files⟩) = some .SMARTSError) ∧
    (code ≠ 127 → code ≠ 0 → errClassOf (runClassify path ⟨code, err, files⟩) = some .SMARTSError) ∧
    (∀ l, code = 0 → firstErrLine (files smLogName) = some l → strHasSub l sunMarker = false →
      errClassOf (runClassify path ⟨code, err, files⟩) = some .SMARTSError) ∧
    (∀ l, code = 0 → firstErrLine (files smLogName) = some l → strHasSub l sunMarker = true →
      errClassOf (runClassify path ⟨code, err, files⟩) = some .SunDownError) ∧
    catches .SMARTSError .SunDownError = true ∧
    catches .SunDownError .SMARTSError = false := by
  refine ⟨?_, ?_, ?_, ?_, rfl, rfl⟩
  · intro h; subst h; rfl
  · intro h1 h0; simp [runClassify, h1, h0, errClassOf]
  · intro l h0 hf hs
    subst h0
    have hsp := (scanLog_spec path (files smLogName)).2 l hf
    simp [runClassify, errClassOf, hsp, hs]
  · intro l h0 hf hs
    subst h0
    have hsp := (scanLog_spec path (files smLogName)).2 l hf
    simp [runClassify, errClassOf, hsp, hs]

/-- Witness for `run_error_kinds`: concrete runs through each branch. -/
theorem run_error_kinds_witness :
    errClassOf (runClassify "w" ⟨127, "e", fun _ => []⟩) = some .SMARTSError ∧
    errClassOf (runClassify "w" ⟨3, "e", fun _ => []⟩) = some .SMARTSError ∧
    errClassOf (runClassify "w" ⟨0, "e", fun _ => ["x ERROR y"]⟩) = some .SMARTSError ∧
    errClassOf (runClassify "w" ⟨0, "e", fun _ => ["** ERROR #7 ***"]⟩) = some .SunDownError := by
  have h127 := (run_error_kinds "w" "e" (fun _ => []) 127).1 rfl
  have h3 := (run_error_kinds "w" "e" (fun _ => []) 3).2.1 (by decide) (by decide)
  have hgen := (run_error_kinds "w" "e" (fun _ => ["x ERROR y"]) 0).2.2.1 "x ERROR y" rfl rfl rfl
  have hsun := (run_error_kinds "w" "e" (fun _ => ["** ERROR #7 ***"]) 0).2.2.2.1
    "** ERROR #7 ***" rfl rfl rfl
  exact ⟨h127, h3, hgen, hsun⟩

/-- Log contents for the C2 counterexample: the first line already contains
'ERROR', the second contains the sun-down marker. -/
def env2cex : ExecEnv :=
  ⟨0, "", fun n => if n = smLogName then ["a ERROR b", "** ERROR #7 ***"] else []⟩

/-- C2, counterexample: with exit code 0, SOME scanned log line contains
'** ERROR #7 ***', yet the run raises the generic `SMARTSError` (for the
earlier plain-ERROR line), not the sun-below-horizon error. -/
theorem run_scan_cex :
    ((env2cex.files smLogName).any (fun l => strHasSub l sunMarker) = true) ∧
    runClassify "w" env2cex = .error (.rtm .SMARTSError (msgNoLike "w" "a ERROR b")) :=
  ⟨rfl, rfl⟩

/-- C2, amended: for a run with exit code 0, classification follows the FIRST
scanned log line containing 'ERROR': if that line contains '** ERROR #7 ***'
the run raises the sun-below-horizon error; otherwise it raises the generic
solver-reported error carrying that line; if no line contains 'ERROR' the run
succeeds and yields the working context. -/
theorem run_scan (path : String) (env : ExecEnv) (h0 : env.code = 0) :
    (firstErrLine (env.files smLogName) = none → runClassify path env = .ok ()) ∧
    (∀ l, firstErrLine (env.files smLogName) = some l → strHasSub l sunMarker = true →
        runClassify path env = .error (.rtm .SunDownError (msgSunDown path l))) ∧
    (∀ l, firstErrLine (env.files smLogName) = some l → strHasSub l sunMarker = false →
        runClassify path env = .error (.rtm .SMARTSError (msgNoLike path l)) ∧
        strHasSub (msgNoLike path l) l = true) := by
  have hrc : runClassify path env = scanLog path (env.files smLogName) := by
    simp [runClassify, h0]
  refine ⟨?_, ?_, ?_⟩
  · intro hn; rw [hrc]; exact (scanLog_spec path _).1 hn
  · intro l hf hs
    rw [hrc, (scanLog_spec path _).2 l hf, if_pos hs]
  · intro l hf hs
    refine ⟨?_, ?_⟩
    · rw [hrc, (scanLog_spec path _).2 l hf]
      simp [hs]
    · exact strHasSub_intro _ _ (path ++ ": smarts no like\n").data []
        (by simp [msgNoLike, strData_append])

/-- Witness for `run_scan`: a clean run, a sun-down run, a generic-error run. -/
theorem run_scan_witness :
    runClassify "w" ⟨0, "e", fun _ => ["all fine"]⟩ = .ok () ∧
    runClassify "w" ⟨0, "e", fun _ => ["** ERROR #7 ***"]⟩ =
      .error (.rtm .SunDownError (msgSunDown "w" "** ERROR #7 ***")) ∧
    runClassify "w" ⟨0, "e", fun _ => ["x ERROR y"]⟩ =
      .error (.rtm .SMARTSError (msgNoLike "w" "x ERROR y")) := by
  have hok := (run_scan "w" ⟨0, "e", fun _ => ["all fine"]⟩ rfl).1 rfl
  have hsun := (run_scan "w" ⟨0, "e", fun _ => ["** ERROR #7 ***"]⟩ rfl).2.1
    "** ERROR #7 ***" rfl rfl
  have hgen := ((run_scan "w" ⟨0, "e", fun _ => ["x ERROR y"]⟩ rfl).2.2
    "x ERROR y" rfl rfl).1
  exact ⟨hok, hsun, hgen⟩

/-- C3, confirmed: for nonzero exit codes, `run()` classifies from the exit
code alone (the outcome is independent of any log contents): 127 raises the
not-found error whose message carries the exit code and the captured stderr;
any other nonzero code raises the generic execution-failure error whose
message carries the working-context path, the exit code and the stderr. -/
theorem run_exit_classification (path err : String) (code : Int)
    (files files' : String → List String) (h : code ≠ 0) :
    runClassify path ⟨code, err, files⟩ = runClassify path ⟨code, err, files'⟩ ∧
    (code = 127 →
      runClassify path ⟨code, err, files⟩ = .error (.rtm .SMARTSError (msgNotFound code err)) ∧
      strHasSub (msgNotFound code err) (toString code) = true ∧
      strHasSub (msgNotFound code err) err = true) ∧
    (code ≠ 127 →
      runClassify path ⟨code, err, files⟩ = .error (.rtm .SMARTSError (msgExecFailed path code err)) ∧
      strHasSub (msgExecFailed path code err) path = true ∧
      strHasSub (msgExecFailed path code err) (toString code) = true ∧
      strHasSub (msgExecFailed path code err) err = true) := by
  refine ⟨?_, ?_, ?_⟩
  · by_cases h127 : code = 127 <;> simp [runClassify, h127, h]
  · intro h127
    refine ⟨by simp [runClassify, h127], ?_, ?_⟩
    · exact strHasSub_intro _ _ []
        ((": SMARTS Executable not found. Did you install it correctly? stderr:\n").data ++ err.data)
        (by simp [msgNotFound, strData_append])
    · exact strHasSub_intro _ _
        ((toString code).data ++ (": SMARTS Executable not found. Did you install it correctly? stderr:\n").data)
        [] (by simp [msgNotFound, strData_append])
  · intro h127
    refine ⟨by simp [runClassify, h127, h], ?_, ?_, ?_⟩
    · exact strHasSub_intro _ _ []
        ((": Execution failed with code ").data ++ ((toString code).data ++ ((". stderr:\n").data ++ err.data)))
        (by simp [msgExecFailed, strData_append])
    · exact strHasSub_intro _ _ (path.data ++ (": Execution failed with code ").data)
        ((". stderr:\n").data ++ err.data)
        (by simp [msgExecFailed, strData_append])
    · exact strHasSub_intro _ _
        (path.data ++ ((": Execution failed with code ").data ++ ((toString code).data ++ (". stderr:\n").data)))
        [] (by simp [msgExecFailed, strData_append])

/-- Witness for `run_exit_classification` at exit codes 127 and 42. -/
theorem run_exit_classification_witness :
    runClassify "w" ⟨127, "e", fun _ => []⟩ = runClassify "w" ⟨127, "e", fun _ => ["ERROR"]⟩ ∧
    runClassify "w" ⟨127, "e", fun _ => []⟩ = .error (.rtm .SMARTSError (msgNotFound 127 "e")) ∧
    strHasSub (msgNotFound 127 "e") (toString (127 : Int)) = true ∧
    strHasSub (msgNotFound 127 "e") "e" = true ∧
    runClassify "w" ⟨42, "e", fun _ => []⟩ = .error (.rtm .SMARTSError (msgExecFailed "w" 42 "e")) := by
  have h1 := run_exit_classification "w" "e" 127 (fun _ => []) (fun _ => ["ERROR"]) (by decide)
  have h2 := run_exit_classification "w" "e" 42 (fun _ => []) (fun _ => []) (by decide)
  exact ⟨h1.1, (h1.2.1 rfl).1, (h1.2.1 rfl).2.1, (h1.2.1 rfl).2.2, (h2.2.2 (by decide)).1⟩

/-- Working directory for the C4 counterexample: the redirection target
`log.txt` holds an ERROR line, while `smarts295.out.txt` is clean. -/
def env4cex : ExecEnv :=
  ⟨0, "", fun n => if n = output_log then ["** ERROR #7 ***"] else []⟩

/-- C4, counterexample: the file the ERROR scan reads ('smarts295.out.txt')
is NOT the redirection target of the command line (`output_log`, 'log.txt');
concretely, a run whose redirect-target log contains an ERROR line but whose
'smarts295.out.txt' is clean succeeds. -/
theorem run_scan_file_cex :
    smLogName ≠ output_log ∧
    full_cmd = command ++ " > " ++ output_log ∧
    ((env4cex.files output_log).any (fun l => strHasSub l errMarker) = true) ∧
    runClassify "w" env4cex = .ok () := by
  refine ⟨by decide, rfl, rfl, rfl⟩

/-- C4, amended: the ERROR scan reads the solver's own fixed-name output file
'smarts295.out.txt', not the redirection target `output_log` ('log.txt') of
the command line: the classification outcome depends only on the exit code,
the captured stderr and the contents of 'smarts295.out.txt'. -/
theorem run_scan_file (path : String) (env env' : ExecEnv)
    (hc : env.code = env'.code) (he : env.err = env'.err)
    (hf : env.files smLogName = env'.files smLogName) :
    runClassify path env = runClassify path env' ∧ smLogName ≠ output_log := by
  refine ⟨?_, by decide⟩
  cases env; cases env'
  simp only at hc he hf
  subst hc; subst he
  simp [runClassify, hf]

/-- Witness for `run_scan_file`: two runs agreeing on 'smarts295.out.txt' but
with different contents elsewhere classify identically. -/
theorem run_scan_file_witness :
    runClassify "w" ⟨0, "e", fun n => if n = smLogName then ["ok"] else ["ERROR"]⟩ =
      runClassify "w" ⟨0, "e", fun _ => ["ok"]⟩ ∧ smLogName ≠ output_log :=
  run_scan_file "w" _ _ rfl rfl rfl

/-- Whitespace predicate of Python's argument-less `str.split` (ASCII
whitespace; the rarely-used Unicode space code points are not modelled, which
leaves the split/join structure unchanged). -/
def pyWs (c : Char) : Bool :=
  c == ' ' || c == '\t' || c == '\n' || c == '\r' || c == '\x0b' || c == '\x0c'

/-- Python's argument-less `str.split` on character lists: maximal runs of
non-whitespace characters, with whitespace discarded. -/
def pySplit : List Char → List (List Char)
  | [] => []
  | c :: cs =>
    if pyWs c then pySplit cs
    else (c :: cs.takeWhile (fun x => !pyWs x)) :: pySplit (cs.dropWhile (fun x => !pyWs x))
termination_by l => l.length
decreasing_by
  all_goals simp
  all_goals have := (List.dropWhile_sublist (l := cs) (fun x => !pyWs x)).length_le
  all_goals omega

/-- COMNT value computed by the `description` conversion of `translate`:
`"_".join(v[:64].split())`. -/
def comntOf (v : String) : String :=
  String.mk (List.intercalate ['_'] (pySplit (v.data.take 64)))

/-- List of parameter names `translate` silently drops. -/
def unsupported : List String :=
  ["cloud_altitude", "cloud_thickness", "cloud_optical_depth",
   "nitrogen", "oxygen", "ammonia", "nitrous_oxide"]

/-- Hard-coded short-codes of `translate`. -/
def hard_code : List (String × PVal) :=
  [("HEIGHT", .num 0), ("ZONE", .num 0), ("SUNCOR", .num 1)]

/-- Direct semantic-name → short-code mapping of `translate`. -/
def direct : List (String × String) :=
  [("solar_constant", "SOLARC"), ("longitude", "LONGIT"), ("latitude", "LATIT"),
   ("elevation", "ALTIT"), ("average_daily_temperature", "TAIR"),
   ("temperature", "TDAY"), ("pressure", "SPR"), ("relative_humidity", "RH"),
   ("carbon_dioxide", "qCO2"), ("single_scattering_albedo", "OMEGL"),
   ("angstroms_coefficient", "TAU550"), ("aerosol_asymmetry", "GG"),
   ("boundary_layer_ozone", "AbO3"), ("formaldehyde", "ApCH2O"),
   ("methane", "ApCh4"), ("carbon_monoxide", "ApCO"),
   ("nitrous_acid", "ApHNO2"), ("nitric_acid", "ApHNO3"),
   ("nitric_oxide", "ApNO"), ("nitrogen_dioxide", "ApNO2"),
   ("nitrogen_trioxide", "ApNO3"), ("sulphur_dioxide", "ApSO2")]

/-- Season enumeration of the `season` conversion. -/
def seasonTbl : List (String × String) := [("winter", "WINTER"), ("summer", "SUMMER")]

/-- Surface-type enumeration of the `surface_type` conversion. -/
def surfaceTbl : List (String × ℚ) :=
  [("snow", 3), ("clear water", 2), ("lake water", 35), ("sea water", 35),
   ("sand", 6), ("vegetation", 17), ("ocean water", 35)]

/-- Standard-atmosphere enumeration of the `atmosphere` conversion. -/
def atmosTbl : List (String × String) :=
  [("tropical", "TRL"), ("mid-latitude summer", "MLS"), ("mid-latitude winter", "MLW"),
   ("sub-arctic summer", "SAS"), ("sub-arctic winter", "SAW"), ("us62", "USSA")]

/-- Python dict lookup `tbl[v]` for a dict with string keys: returns `none`
(a `KeyError`) unless `v` equals one of the keys. -/
def enumLookup {α : Type} : List (String × α) → PVal → Option α
  | [], _ => none
  | (k, code) :: rest, v => if v = PVal.str k then some code else enumLookup rest v

/-- Python truthiness (`1 if v else 0`). -/
def pyTruthy : PVal → Bool
  | .str s => !(s == "")
  | .num q => !(q == 0)
  | .boolean b => b
  | .time _ => true

/-- Python `v * k` for an int literal `k`: numbers multiply, bools coerce to
ints, strings replicate, anything else is a TypeError. -/
def pyMulInt : PVal → Int → Except PyErr PVal
  | .num q, k => .ok (.num (q * k))
  | .boolean b, k => .ok (.num ((if b then (1 : ℚ) else 0) * k))
  | .str s, k => .ok (.str (String.join (List.replicate k.toNat s)))
  | .time _, _ => .error (.typeError "unsupported operand type")

/-- Conversion for `description`: `{'COMNT': "_".join(v[:64].split())}`. -/
def descFn : PVal → Except PyErr (List (String × PVal))
  | .str s => .ok [("COMNT", .str (comntOf s))]
  | _ => .error (.typeError "str expected")

/-- Conversion for `time`: decompose `v.utctimetuple()` into YEAR, MONTH, DAY
and fractional HOUR. -/
def timeFn : PVal → Except PyErr (List (String × PVal))
  | .time tt => .ok [("YEAR", .num tt.tm_year), ("MONTH", .num tt.tm_mon),
      ("DAY", .num tt.tm_mday),
      ("HOUR", .num ((tt.tm_hour : ℚ) + (tt.tm_min : ℚ) / 60 + (tt.tm_sec : ℚ) / 3600))]
  | _ => .error (.typeError "datetime expected")

/-- Conversion for `season`: closed enumeration lookup. -/
def seasonFn (v : PVal) : Except PyErr (List (String × PVal)) :=
  match enumLookup seasonTbl v with
  | some code => .ok [("SEASON", .str code)]
  | none => .error (.keyError v)

/-- Conversion for `surface_type`: closed enumeration lookup. -/
def surfaceFn (v : PVal) : Except PyErr (List (String × PVal)) :=
  match enumLookup surfaceTbl v with
  | some code => .ok [("IALBDX", .num code)]
  | none => .error (.keyError v)

/-- Conversion for `atmosphere`: closed enumeration lookup. -/
def atmosFn (v : PVal) : Except PyErr (List (String × PVal)) :=
  match enumLookup atmosTbl v with
  | some code => .ok [("ATMOS", .str code)]
  | none => .error (.keyError v)

/-- Conversion for `angstroms_exponent`: fans out into ALPHA1 and ALPHA2. -/
def angstromsFn (v : PVal) : Except PyErr (List (String × PVal)) :=
  .ok [("ALPHA1", v), ("ALPHA2", v)]

/-- Conversion for `tropospheric_ozone`: `{'ApO3': v * 10}` (atm-cm → ppmv). -/
def ozoneFn (v : PVal) : Except PyErr (List (String × PVal)) :=
  (pyMulInt v 10).map fun w => [("ApO3", w)]

/-- Conversion for `lower_limit`: `{'WLMN': v*1000, 'WPMN': v*1000}` (µm → nm). -/
def lowerFn (v : PVal) : Except PyErr (List (String × PVal)) :=
  (pyMulInt v 1000).map fun w => [("WLMN", w), ("WPMN", w)]

/-- Conversion for `upper_limit`: `{'WLMX': v*1000, 'WPMX': v*1000}` (µm → nm). -/
def upperFn (v : PVal) : Except PyErr (List (String × PVal)) :=
  (pyMulInt v 1000).map fun w => [("WLMX", w), ("WPMX", w)]

/-- Conversion for `resolution`: `{'INTVL': v * 1000}` (µm → nm). -/
def resolutionFn (v : PVal) : Except PyErr (List (String × PVal)) :=
  (pyMulInt v 1000).map fun w => [("INTVL", w)]

/-- Conversion for `smarts_use_standard_atmos`: `{'IATMOS': 1 if v else 0}`. -/
def stdAtmosFn (v : PVal) : Except PyErr (List (String × PVal)) :=
  .ok [("IATMOS", .num (if pyTruthy v then 1 else 0))]

/-- Derived-conversion table of `translate`: name ↦ (dependency list,
conversion function).  Every dependency list in the source is the empty
tuple `()`. -/
def convert : List (String × (List String × (PVal → Except PyErr (List (String × PVal))))) :=
  [("description", ([], descFn)), ("time", ([], timeFn)), ("season", ([], seasonFn)),
   ("surface_type", ([], surfaceFn)), ("atmosphere", ([], atmosFn)),
   ("angstroms_exponent", ([], angstromsFn)), ("tropospheric_ozone", ([], ozoneFn)),
   ("lower_limit", ([], lowerFn)), ("upper_limit", ([], upperFn)),
   ("resolution", ([], resolutionFn)), ("smarts_use_standard_atmos", ([], stdAtmosFn))]

/-- Mutable state of `translate`: the `processed` list and the `translated`
dict (modelled as an association list whose most recent binding comes first). -/
structure TState where
  processed : List String
  translated : List (String × PVal)

/-- Model of `dict.update`: prepend the new bindings so that lookups see the
latest one. -/
def updateA (m : List (String × PVal)) (kvs : List (String × PVal)) : List (String × PVal) :=
  kvs.foldl (fun acc kv => kv :: acc) m

/-- Dependency loop of `addItem`: `for d in convert[param][0]: if d not in
processed: addItem(d)`.  The bare recursive call `addItem(d)` passes only one
of the two required arguments, so executing it raises a TypeError, modelled
as `missingArg`. -/
def depsLoop (processed : List String) : List String → Except PyErr Unit
  | [] => .ok ()
  | d :: ds => if processed.contains d then depsLoop processed ds else .error .missingArg

/-- Convert-table branch of `addItem`: run the dependency loop for the entry,
then its conversion function, then merge the produced bindings. -/
def convApply (processed : List String) (translated : List (String × PVal))
    (ent : String × List String × (PVal → Except PyErr (List (String × PVal))))
    (val : PVal) : Except PyErr (List (String × PVal)) :=
  match depsLoop processed ent.2.1 with
  | .error e => .error e
  | .ok _ =>
    match ent.2.2 val with
    | .error e => .error e
    | .ok kvs => .ok (updateA translated kvs)

/-- Body of `addItem` acting on the `translated` dict: unsupported names are
dropped, direct names map through, convert names run their dependency loop
and conversion function, unknown names print a diagnostic and are ignored. -/
def procParam (processed : List String) (translated : List (String × PVal))
    (param : String) (val : PVal) : Except PyErr (List (String × PVal)) :=
  if unsupported.contains param then .ok translated
  else
    match direct.find? (fun kv => kv.1 == param) with
    | some kv => .ok (updateA translated [(kv.2, val)])
    | none =>
      match convert.find? (fun ent => ent.1 == param) with
      | some ent => convApply processed translated ent val
      | none => .ok translated

/-- `translate.addItem`: process one parameter and append it to `processed`
(the append does not run when an exception escapes, matching Python). -/
def addItem (st : TState) (param : String) (val : PVal) : Except PyErr TState :=
  match procParam st.processed st.translated param val with
  | .error e => .error e
  | .ok tr => .ok ⟨st.processed ++ [param], tr⟩

/-- Main loop of `translate`: `for param, val in p.items(): if param not in
processed: addItem(param, val)`. -/
def transLoop (st : TState) : List (String × PVal) → Except PyErr TState
  | [] => .ok st
  | (param, val) :: rest =>
    if st.processed.contains param then transLoop st rest
    else
      match addItem st param val with
      | .error e => .error e
      | .ok st' => transLoop st' rest

/-- Python dict insertion preserving insertion order: overwrite the value if
the key exists, else append the binding. -/
def dictInsert (d : List (String × PVal)) (k : String) (v : PVal) : List (String × PVal) :=
  if d.any (fun kv => kv.1 == k) then d.map (fun kv => if kv.1 == k then (k, v) else kv)
  else d ++ [(k, v)]

/-- Build a Python dict (ordered, unique keys) from a binding list. -/
def dictOf (l : List (String × PVal)) : List (String × PVal) :=
  l.foldl (fun dd kv => dictInsert dd kv.1 kv.2) []

/-- `p = dict(settings.defaults); p.update(params)` of `translate`. -/
def pyMerge (defaults params : List (String × PVal)) : List (String × PVal) :=
  params.foldl (fun dd kv => dictInsert dd kv.1 kv.2) (dictOf defaults)

/-- The translator `translate(params)`.  The `settings.defaults` table lives
in `atmosrt/settings.py`, which is not under `src/`; modelled from the spec
("merges params over a fixed defaults table") by taking the defaults as an
explicit argument of unknown contents. -/
def translateParams (defaults params : List (String × PVal)) : Except PyErr (List (String × PVal)) :=
  match transLoop ⟨[], updateA [] hard_code⟩ (pyMerge defaults params) with
  | .error e => .error e
  | .ok st => .ok st.translated

theorem pySplit_nil : pySplit [] = [] := by
  simp [pySplit]

theorem pySplit_ws (c : Char) (cs : List Char) (h : pyWs c = true) :
    pySplit (c :: cs) = pySplit cs := by
  rw [pySplit]
  simp [h]

theorem pySplit_word (c : Char) (cs : List Char) (h : pyWs c = false) :
    pySplit (c :: cs) =
      (c :: cs.takeWhile (fun x => !pyWs x)) :: pySplit (cs.dropWhile (fun x => !pyWs x)) := by
  rw [pySplit]
  simp [h]

theorem intercalate_nil (s : List Char) : List.intercalate s [] = [] := rfl

theorem intercalate_single (s a : List Char) : List.intercalate s [a] = a := by
  simp [List.intercalate, List.intersperse]

theorem intercalate_cons2 (s a b : List Char) (rest : List (List Char)) :
    List.intercalate s (a :: b :: rest) = a ++ s ++ List.intercalate s (b :: rest) := by
  simp [List.intercalate, List.intersperse, List.flatten]

/-- Head of a non-empty `dropWhile` result falsifies the predicate. -/
theorem dropWhile_head_false (p : Char → Bool) :
    ∀ (l : List Char) (b : Char) (t : List Char), l.dropWhile p = b :: t → p b = false := by
  intro l
  induction l with
  | nil => intro b t h; simp [List.dropWhile] at h
  | cons c cs ih =>
    intro b t h
    rw [List.dropWhile] at h
    by_cases hc : p c = true
    · rw [hc] at h; exact ih b t h
    · have hc' : p c = false := by simpa using hc
      rw [hc'] at h
      cases h
      exact hc'

/-- Collapsing whitespace never lengthens a string: the length of
`"_".join(l.split())` is at most the length of `l`. -/
theorem interLen : ∀ n (l : List Char), l.length ≤ n →
    (List.intercalate ['_'] (pySplit l)).length ≤ l.length := by
  intro n
  induction n with
  | zero =>
    intro l hl
    have : l = [] := List.eq_nil_of_length_eq_zero (Nat.le_zero.mp hl)
    subst this
    simp [pySplit_nil, intercalate_nil]
  | succ n ih =>
    intro l hl
    match l with
    | [] => simp [pySplit_nil, intercalate_nil]
    | c :: cs =>
      by_cases h : pyWs c = true
      · rw [pySplit_ws c cs h]
        have := ih cs (by simpa using Nat.lt_succ_iff.mp (Nat.lt_of_lt_of_le (Nat.lt_succ_self _) hl))
        simp only [List.length_cons]
        omega
      · have h' : pyWs c = false := by simpa using h
        rw [pySplit_word c cs h']
        set t := cs.takeWhile (fun x => !pyWs x) with ht
        set d := cs.dropWhile (fun x => !pyWs x) with hd
        have hcs : t ++ d = cs := List.takeWhile_append_dropWhile _ _
        have hlen : t.length + d.length = cs.length := by
          rw [← hcs, List.length_append]
        match hdd : d with
        | [] =>
          have : pySplit ([] : List Char) = [] := pySplit_nil
          rw [this, intercalate_single]
          simp only [List.length_cons]
          omega
        | b :: d' =>
          have hb : pyWs b = true := by
            have := dropWhile_head_false (fun x => !pyWs x) cs b d' (hd ▸ hdd ▸ rfl)
            simpa using this
          rw [pySplit_ws b d' hb]
          have hbd : (b :: d').length = d'.length + 1 := by simp
          have hd'len : d'.length ≤ n := by
            simp only [List.length_cons] at hl
            omega
          have ihd' := ih d' hd'len
          match hps : pySplit d' with
          | [] =>
            rw [intercalate_single]
            simp only [List.length_cons]
            omega
          | w :: ws =>
            rw [intercalate_cons2]
            rw [hps] at ihd'
            have h1 : (List.intercalate ['_'] (w :: ws)).length ≤ d'.length := ihd'
            simp only [List.length_append, List.length_cons, List.length_nil]
            simp only [List.length_cons] at hl ⊢
            omega

/-- Collapsing whitespace leaves no whitespace character: every character of
`"_".join(l.split())` falsifies `pyWs`. -/
theorem interNoWs : ∀ n (l : List Char), l.length ≤ n →
    ∀ x ∈ List.intercalate ['_'] (pySplit l), pyWs x = false := by
  intro n
  induction n with
  | zero =>
    intro l hl x hx
    have : l = [] := List.eq_nil_of_length_eq_zero (Nat.le_zero.mp hl)
    subst this
    simp [pySplit_nil, intercalate_nil] at hx
  | succ n ih =>
    intro l hl x hx
    match l with
    | [] => simp [pySplit_nil, intercalate_nil] at hx
    | c :: cs =>
      by_cases h : pyWs c = true
      · rw [pySplit_ws c cs h] at hx
        exact ih cs (by simp only [List.length_cons] at hl; omega) x hx
      · have h' : pyWs c = false := by simpa using h
        rw [pySplit_word c cs h'] at hx
        set t := cs.takeWhile (fun a => !pyWs a) with ht
        set d := cs.dropWhile (fun a => !pyWs a) with hd
        have hword : ∀ y, y ∈ c :: t → pyWs y = false := by
          intro y hy
          rcases List.mem_cons.mp hy with hy | hy
          · subst hy; exact h'
          · have := List.mem_takeWhile_imp hy
            simpa using this
        cases hdd : d with
        | nil =>
          rw [hdd, pySplit_nil, intercalate_single] at hx
          exact hword x hx
        | cons b d' =>
          have hds : cs.dropWhile (fun a => !pyWs a) = b :: d' := by rw [← hd, hdd]
          have hb : pyWs b = true := by
            have := dropWhile_head_false (fun a => !pyWs a) cs b d' hds
            simpa using this
          have hd'len : d'.length ≤ n := by
            have h1 := (List.dropWhile_sublist (l := cs) (fun a => !pyWs a)).length_le
            rw [hds] at h1
            simp only [List.length_cons] at h1 hl
            omega
          rw [hdd, pySplit_ws b d' hb] at hx
          cases hps : pySplit d' with
          | nil =>
            rw [hps, intercalate_single] at hx
            exact hword x hx
          | cons w ws =>
            rw [hps, intercalate_cons2] at hx
            simp only [List.mem_append] at hx
            rcases hx with (hx | hx) | hx
            · exact hword x hx
            · simp only [List.mem_singleton] at hx
              subst hx
              rfl
            · exact ih d' hd'len x (by rw [hps]; exact hx)

/-- C9, confirmed: the `description` conversion computes
`"_".join(v[:64].split())` — the string truncated to its first 64 characters
with whitespace runs collapsed to single separators — so the COMNT value is
at most 64 characters long and contains no whitespace character, for every
input string. -/
theorem translate_description (v : String) :
    descFn (.str v) = .ok [("COMNT", .str (comntOf v))] ∧
    (comntOf v).length ≤ 64 ∧
    (comntOf v).data.all (fun c => !pyWs c) = true := by
  refine ⟨rfl, ?_, ?_⟩
  · have h1 := interLen (v.data.take 64).length (v.data.take 64) le_rfl
    have h2 : (v.data.take 64).length ≤ 64 := by
      simp [List.length_take]
    exact le_trans h1 h2
  · rw [List.all_eq_true]
    intro x hx
    have hno := interNoWs (v.data.take 64).length (v.data.take 64) le_rfl x hx
    simp [hno]

theorem descFn_no_missing (v : PVal) : descFn v ≠ .error .missingArg := by
  cases v <;> simp [descFn]

theorem timeFn_no_missing (v : PVal) : timeFn v ≠ .error .missingArg := by
  cases v <;> simp [timeFn]

theorem seasonFn_no_missing (v : PVal) : seasonFn v ≠ .error .missingArg := by
  unfold seasonFn
  cases enumLookup seasonTbl v <;> simp

theorem surfaceFn_no_missing (v : PVal) : surfaceFn v ≠ .error .missingArg := by
  unfold surfaceFn
  cases enumLookup surfaceTbl v <;> simp

theorem atmosFn_no_missing (v : PVal) : atmosFn v ≠ .error .missingArg := by
  unfold atmosFn
  cases enumLookup atmosTbl v <;> simp

theorem angstromsFn_no_missing (v : PVal) : angstromsFn v ≠ .error .missingArg := by
  simp [angstromsFn]

theorem pyMulInt_no_missing (v : PVal) (k : Int) : pyMulInt v k ≠ .error .missingArg := by
  cases v <;> simp [pyMulInt]

theorem ozoneFn_no_missing (v : PVal) : ozoneFn v ≠ .error .missingArg := by
  unfold ozoneFn
  cases h : pyMulInt v 10 with
  | error e =>
    have hnm := pyMulInt_no_missing v 10
    rw [h] at hnm
    simp [Except.map]
    rintro rfl
    exact hnm rfl
  | ok w => simp [Except.map]

theorem lowerFn_no_missing (v : PVal) : lowerFn v ≠ .error .missingArg := by
  unfold lowerFn
  cases h : pyMulInt v 1000 with
  | error e =>
    have hnm := pyMulInt_no_missing v 1000
    rw [h] at hnm
    simp [Except.map]
    rintro rfl
    exact hnm rfl
  | ok w => simp [Except.map]

theorem upperFn_no_missing (v : PVal) : upperFn v ≠ .error .missingArg := by
  unfold upperFn
  cases h : pyMulInt v 1000 with
  | error e =>
    have hnm := pyMulInt_no_missing v 1000
    rw [h] at hnm
    simp [Except.map]
    rintro rfl
    exact hnm rfl
  | ok w => simp [Except.map]

theorem resolutionFn_no_missing (v : PVal) : resolutionFn v ≠ .error .missingArg := by
  unfold resolutionFn
  cases h : pyMulInt v 1000 with
  | error e =>
    have hnm := pyMulInt_no_missing v 1000
    rw [h] at hnm
    simp [Except.map]
    rintro rfl
    exact hnm rfl
  | ok w => simp [Except.map]

theorem stdAtmosFn_no_missing (v : PVal) : stdAtmosFn v ≠ .error .missingArg := by
  simp [stdAtmosFn]

/-- Every derived-conversion entry has an empty dependency list, and its
conversion function never raises the missing-argument TypeError. -/
theorem convert_no_missing :
    ∀ ent ∈ convert, ent.2.1 = [] ∧ ∀ v, ent.2.2 v ≠ .error .missingArg := by
  intro ent h
  simp only [convert, List.mem_cons, List.not_mem_nil, or_false] at h
  rcases h with h | h | h | h | h | h | h | h | h | h | h <;> subst h
  · exact ⟨rfl, descFn_no_missing⟩
  · exact ⟨rfl, timeFn_no_missing⟩
  · exact ⟨rfl, seasonFn_no_missing⟩
  · exact ⟨rfl, surfaceFn_no_missing⟩
  · exact ⟨rfl, atmosFn_no_missing⟩
  · exact ⟨rfl, angstromsFn_no_missing⟩
  · exact ⟨rfl, ozoneFn_no_missing⟩
  · exact ⟨rfl, lowerFn_no_missing⟩
  · exact ⟨rfl, upperFn_no_missing⟩
  · exact ⟨rfl, resolutionFn_no_missing⟩
  · exact ⟨rfl, stdAtmosFn_no_missing⟩

theorem convApply_no_missing (processed : List String) (translated : List (String × PVal))
    (ent : String × List String × (PVal → Except PyErr (List (String × PVal)))) (val : PVal)
    (hdeps : ent.2.1 = []) (hfn : ∀ v, ent.2.2 v ≠ .error .missingArg) :
    convApply processed translated ent val ≠ .error .missingArg := by
  unfold convApply
  rw [hdeps]
  simp only [depsLoop]
  cases hv : ent.2.2 val with
  | error e =>
    have := hfn val
    rw [hv] at this
    simp
    rintro rfl
    exact this rfl
  | ok kvs => simp

theorem procParam_no_missing (processed : List String) (translated : List (String × PVal))
    (param : String) (val : PVal) :
    procParam processed translated param val ≠ .error .missingArg := by
  unfold procParam
  split
  · simp
  · cases hd : direct.find? (fun kv => kv.1 == param) with
    | some kv => simp
    | none =>
      cases hc : convert.find? (fun ent => ent.1 == param) with
      | none => simp
      | some ent =>
        have hmem := List.mem_of_find?_eq_some hc
        obtain ⟨hdeps, hfn⟩ := convert_no_missing ent hmem
        exact convApply_no_missing processed translated ent val hdeps hfn

theorem addItem_no_missing (st : TState) (param : String) (val : PVal) :
    addItem st param val ≠ .error .missingArg := by
  unfold addItem
  cases h : procParam st.processed st.translated param val with
  | error e =>
    have := procParam_no_missing st.processed st.translated param val
    rw [h] at this
    simp
    rintro rfl
    exact this rfl
  | ok tr => simp

theorem addItem_ok_processed (st : TState) (param : String) (val : PVal) (st' : TState)
    (h : addItem st param val = .ok st') : st'.processed = st.processed ++ [param] := by
  unfold addItem at h
  cases hp : procParam st.processed st.translated param val with
  | error e => rw [hp] at h; cases h
  | ok tr =>
    rw [hp] at h
    cases h
    rfl

theorem transLoop_no_missing : ∀ (items : List (String × PVal)) (st : TState),
    transLoop st items ≠ .error .missingArg := by
  intro items
  induction items with
  | nil => intro st; simp [transLoop]
  | cons kv rest ih =>
    intro st
    obtain ⟨param, val⟩ := kv
    unfold transLoop
    split
    · exact ih st
    · cases h : addItem st param val with
      | error e =>
        have := addItem_no_missing st param val
        rw [h] at this
        simp
        rintro rfl
        exact this rfl
      | ok st' => exact ih st'

/-- C10, confirmed: every entry of the derived-conversion table carries the
empty dependency list, so the dependency-recursion branch of `addItem` — whose
bare recursive call `addItem(d)` supplies only one of the two required
arguments and would raise a TypeError — is never executed, and `translate`
never fails with that error, for any defaults table and any parameter set. -/
theorem translate_no_dependency_recursion (defaults params : List (String × PVal)) :
    convert.all (fun ent => ent.2.1.isEmpty) = true ∧
    translateParams defaults params ≠ .error .missingArg := by
  refine ⟨rfl, ?_⟩
  unfold translateParams
  cases h : transLoop ⟨[], updateA [] hard_code⟩ (pyMerge defaults params) with
  | error e =>
    have := transLoop_no_missing (pyMerge defaults params) ⟨[], updateA [] hard_code⟩
    rw [h] at this
    simp
    rintro rfl
    exact this rfl
  | ok st => simp

/-- Python `str()` of a translated value as interpolated by `'%s'` in
`cardify`.  Rendering of numbers and struct_time is abstracted (exact float
repr is not modelled); strings pass through verbatim, as in the source. -/
def pvStr : PVal → String
  | .str s => s
  | .num q => toString q
  | .boolean b => if b then "True" else "False"
  | .time _ => "time.struct_time"

/-- Left-pad a numeral to six digits. -/
def pad6 (n : Nat) : String :=
  String.mk (List.replicate (6 - (toString n).length) '0') ++ toString n

/-- Python `'%f' %` rendering of a nonnegative-or-negative rational with six
decimal places (floor-based; the float rounding mode is abstracted). -/
def fmtF (q : ℚ) : String :=
  let neg := q < 0
  let a : ℚ := if neg then -q else q
  let scaled : ℤ := a.num * 1000000 / (a.den : ℤ)
  let ip := scaled / 1000000
  let fr := scaled % 1000000
  (if neg then "-" else "") ++ toString ip ++ "." ++ pad6 fr.toNat

/-- Python `'%f' %` applied to a value: numbers and bools format, anything
else raises a TypeError. -/
def pvF : PVal → Except PyErr String
  | .num q => .ok (fmtF q)
  | .boolean b => .ok (fmtF (if b then 1 else 0))
  | _ => .error (.typeError "float argument required")

/-- Dict lookup `params[k]` in `cardify`: a missing key raises `KeyError`. -/
def dGet (d : List (String × PVal)) (k : String) : Except PyErr PVal :=
  match d.find? (fun kv => kv.1 == k) with
  | some kv => .ok kv.2
  | none => .error (.keyError (.str k))

/-- Gas short-codes of card 6, in source order. -/
def gasNames : List String :=
  ["ApCH2O", "ApCh4", "ApCO", "ApHNO2", "ApHNO3", "ApNO", "ApNO2", "ApNO3", "ApO3", "ApSO2"]

/-- Card 6 gas line: look up all ten gases, format each with `%f`, join with
single spaces. -/
def cardGases (d : List (String × PVal)) : Except PyErr String := do
  let vals ← gasNames.mapM (fun g => dGet d g)
  let strs ← vals.mapM (fun v => pvF v)
  pure (String.intercalate " " strs)

/-- Append the inline comment of `card_print`: `' \t\t\t! %s' % comment`. -/
def withCmt (content cmt : String) : String := content ++ " \t\t\t! " ++ cmt

/-- Cards 4 through 17 of `cardify(params)` (everything after card 3), as a
list of lines, with the lookups in source order. -/
def cardTail (d : List (String × PVal)) : Except PyErr (List String) := do
  let abo3 ← dGet d "AbO3"
  let abo3f ← pvF abo3
  let gs ← cardGases d
  let qco2 ← dGet d "qCO2"
  let alpha1 ← dGet d "ALPHA1"
  let alpha2 ← dGet d "ALPHA2"
  let omegl ← dGet d "OMEGL"
  let gg ← dGet d "GG"
  let tau550 ← dGet d "TAU550"
  let ialbdx ← dGet d "IALBDX"
  let wlmn ← dGet d "WLMN"
  let wlmx ← dGet d "WLMX"
  let suncor ← dGet d "SUNCOR"
  let solarc ← dGet d "SOLARC"
  let wpmn ← dGet d "WPMN"
  let wpmx ← dGet d "WPMX"
  let intvl ← dGet d "INTVL"
  let year ← dGet d "YEAR"
  let month ← dGet d "MONTH"
  let day ← dGet d "DAY"
  let hour ← dGet d "HOUR"
  let latit ← dGet d "LATIT"
  let longit ← dGet d "LONGIT"
  let zone ← dGet d "ZONE"
  pure
    [withCmt "2" "4 IH2O mode select",
     withCmt "0" "5 IO3 mode select",
     withCmt ("0 " ++ abo3f) "ozone column",
     withCmt "0" "6 IGAS",
     withCmt "0" "ILOAD",
     withCmt gs "gasses",
     withCmt (pvStr qco2) "7 qCO2 ppm",
     "0",
     withCmt "'USER'" "8 AEROS",
     pvStr alpha1 ++ " " ++ pvStr alpha2 ++ " " ++ pvStr omegl ++ " " ++ pvStr gg,
     withCmt "5" "9 ITURB",
     pvStr tau550,
     withCmt (pvStr ialbdx) "10 IALBDX",
     "0",
     withCmt (pvStr wlmn ++ " " ++ pvStr wlmx ++ " " ++ pvStr suncor ++ " " ++ pvStr solarc) "11 blergh",
     withCmt "2" "12 IPRT",
     pvStr wpmn ++ " " ++ pvStr wpmx ++ " " ++ pvStr intvl,
     "4",
     "2 3 4 5",
     withCmt "0" "13 ICIRC",
     withCmt "0" "14 ISCAN",
     withCmt "0" "15 ILLUM",
     withCmt "0" "16 IUV",
     withCmt "3" "17 IMASS",
     pvStr year ++ " " ++ pvStr month ++ " " ++ pvStr day ++ " " ++ pvStr hour ++ " " ++
       pvStr latit ++ " " ++ pvStr longit ++ " " ++ pvStr zone,
     ""]

/-- The card deck of `cardify(params)` as a list of lines, in source order.
Card 3 chooses between the surface-condition card (IATMOS = 0) and the
named-atmosphere card (IATMOS = 1) and otherwise fails with the assertion
`'bad smarts IATMOS (not 0 or 1)'`.  The card-3 line sits at index 4. -/
def cardLines (d : List (String × PVal)) : Except PyErr (List String) := do
  let comnt ← dGet d "COMNT"
  let spr ← dGet d "SPR"
  let altit ← dGet d "ALTIT"
  let height ← dGet d "HEIGHT"
  let iatmos ← dGet d "IATMOS"
  let card3 ←
    if iatmos = PVal.num 0 then do
      let tair ← dGet d "TAIR"
      let rh ← dGet d "RH"
      let season ← dGet d "SEASON"
      let tday ← dGet d "TDAY"
      pure (pvStr tair ++ " " ++ pvStr rh ++ " '" ++ pvStr season ++ "' " ++ pvStr tday)
    else
      if iatmos = PVal.num 1 then do
        let atmos ← dGet d "ATMOS"
        pure ("'" ++ pvStr atmos ++ "'")
      else .error (.assertionError "bad smarts IATMOS (not 0 or 1)")
  let tail ← cardTail d
  pure
    ([withCmt ("'" ++ pvStr comnt ++ "'") "1 COMNT",
      withCmt "1" "2 ISPR mode select",
      pvStr spr ++ " " ++ pvStr altit ++ " " ++ pvStr height,
      withCmt (pvStr iatmos) "3 IATMOS mode select",
      card3] ++ tail)

/-- `cardify(params)`: the deck as one string, each line followed by a line
break. -/
def cardify (t : List (String × PVal)) : Except PyErr String :=
  match cardLines t with
  | .error e => .error e
  | .ok ls => .ok (String.join (ls.map (fun l => l ++ "\n")))

/-- Control flow of `SMARTS.run` up to the `yield`: translate, format and
write the cards, run the solver, classify the result.  Any exception escaping
an earlier stage prevents the later stages (in particular, a translation
error propagates before the solver process is spawned, so the outcome cannot
depend on `env`). -/
def runSmarts (defaults params : List (String × PVal)) (path : String)
    (env : ExecEnv) : Except PyErr String :=
  match translateParams defaults params with
  | .error e => .error e
  | .ok t =>
    match cardify t with
    | .error e => .error e
    | .ok cards =>
      match runClassify path env with
      | .error e => .error e
      | .ok _ => .ok cards

theorem seasonFn_invalid (v : PVal) (h1 : v ≠ .str "winter") (h2 : v ≠ .str "summer") :
    seasonFn v = .error (.keyError v) := by
  unfold seasonFn
  have h : enumLookup seasonTbl v = none := by
    simp [seasonTbl, enumLookup, h1, h2]
  rw [h]

theorem surfaceFn_invalid (v : PVal) (h1 : v ≠ .str "snow") (h2 : v ≠ .str "clear water")
    (h3 : v ≠ .str "lake water") (h4 : v ≠ .str "sea water") (h5 : v ≠ .str "sand")
    (h6 : v ≠ .str "vegetation") (h7 : v ≠ .str "ocean water") :
    surfaceFn v = .error (.keyError v) := by
  unfold surfaceFn
  have h : enumLookup surfaceTbl v = none := by
    simp [surfaceTbl, enumLookup, h1, h2, h3, h4, h5, h6, h7]
  rw [h]

theorem atmosFn_invalid (v : PVal) (h1 : v ≠ .str "tropical")
    (h2 : v ≠ .str "mid-latitude summer") (h3 : v ≠ .str "mid-latitude winter")
    (h4 : v ≠ .str "sub-arctic summer") (h5 : v ≠ .str "sub-arctic winter")
    (h6 : v ≠ .str "us62") :
    atmosFn v = .error (.keyError v) := by
  unfold atmosFn
  have h : enumLookup atmosTbl v = none := by
    simp [atmosTbl, enumLookup, h1, h2, h3, h4, h5, h6]
  rw [h]

/-- Keys of an association-list dict. -/
def keysOf (l : List (String × PVal)) : List String := l.map Prod.fst

theorem dictInsert_keys_nodup (d : List (String × PVal)) (k : String) (v : PVal)
    (h : (keysOf d).Nodup) : (keysOf (dictInsert d k v)).Nodup := by
  unfold dictInsert
  split
  · have heq : keysOf (d.map (fun kv => if kv.1 == k then (k, v) else kv)) = keysOf d := by
      unfold keysOf
      rw [List.map_map]
      apply List.map_congr_left
      intro kv _
      by_cases hk : kv.1 == k
      · simp only [Function.comp_apply, hk, if_true]
        exact (eq_of_beq hk).symm
      · have hne : kv.1 ≠ k := by simpa using hk
        simp [hne]
    rw [heq]
    exact h
  · rename_i hany
    have hni : k ∉ keysOf d := by
      intro hk
      apply hany
      rw [List.any_eq_true]
      obtain ⟨kv, hkv, hfst⟩ := List.mem_map.mp hk
      exact ⟨kv, hkv, by simp [hfst]⟩
    unfold keysOf
    rw [List.map_append]
    simp only [List.map_cons, List.map_nil]
    rw [List.nodup_append]
    refine ⟨h, List.nodup_singleton _, ?_⟩
    intro a ha hb
    simp only [List.mem_singleton] at hb
    subst hb
    exact hni ha

theorem foldl_dictInsert_nodup (l : List (String × PVal)) :
    ∀ d, (keysOf d).Nodup →
      (keysOf (l.foldl (fun dd kv => dictInsert dd kv.1 kv.2) d)).Nodup := by
  induction l with
  | nil => intro d h; simpa using h
  | cons kv rest ih =>
    intro d h
    exact ih _ (dictInsert_keys_nodup d kv.1 kv.2 h)

/-- The merged parameter dict has unique keys. -/
theorem pyMerge_keys_nodup (defaults params : List (String × PVal)) :
    (keysOf (pyMerge defaults params)).Nodup := by
  unfold pyMerge dictOf
  apply foldl_dictInsert_nodup
  apply foldl_dictInsert_nodup
  simp [keysOf]

/-- If some entry of the iterated dict is doomed (its `addItem` raises the
same error from every state) and its key is not yet processed, the main loop
of `translate` raises. -/
theorem transLoop_fail : ∀ (items : List (String × PVal)) (st : TState) (k : String)
    (v : PVal) (e0 : PyErr),
    (keysOf items).Nodup → (k, v) ∈ items → k ∉ st.processed →
    (∀ st' : TState, addItem st' k v = .error e0) →
    ∃ e, transLoop st items = .error e := by
  intro items
  induction items with
  | nil =>
    intro st k v e0 _ hmem
    simp at hmem
  | cons kv rest ih =>
    intro st k v e0 hnd hmem hproc hbad
    obtain ⟨p, w⟩ := kv
    have hnd' : p ∉ keysOf rest ∧ (keysOf rest).Nodup :=
      List.nodup_cons.mp (by simpa [keysOf] using hnd)
    rcases List.mem_cons.mp hmem with heq | hmem'
    · injection heq with hk hv
      subst hk
      subst hv
      unfold transLoop
      rw [if_neg (by simpa using hproc)]
      rw [hbad st]
      exact ⟨e0, rfl⟩
    · have hk_ne : k ≠ p := by
        intro he
        have hkin : k ∈ keysOf rest := List.mem_map.mpr ⟨(k, v), hmem', rfl⟩
        exact hnd'.1 (he ▸ hkin)
      unfold transLoop
      by_cases hcp : p ∈ st.processed
      · rw [if_pos (by simpa using hcp)]
        exact ih st k v e0 hnd'.2 hmem' hproc hbad
      · rw [if_neg (by simpa using hcp)]
        cases ha : addItem st p w with
        | error e => exact ⟨e, rfl⟩
        | ok st' =>
          have hps := addItem_ok_processed st p w st' ha
          have hproc' : k ∉ st'.processed := by
            rw [hps]
            simp only [List.mem_append, List.mem_singleton]
            rintro (hin | hin)
            · exact hproc hin
            · exact hk_ne hin
          exact ih st' k v e0 hnd'.2 hmem' hproc' hbad

/-- A doomed entry of the merged dict makes `translate` raise. -/
theorem translate_fails_of_bad (defaults params : List (String × PVal)) (k : String)
    (v : PVal) (e0 : PyErr) (hmem : (k, v) ∈ pyMerge defaults params)
    (hbad : ∀ st : TState, addItem st k v = .error e0) :
    ∃ e, translateParams defaults params = .error e := by
  obtain ⟨e, he⟩ := transLoop_fail (pyMerge defaults params) ⟨[], updateA [] hard_code⟩ k v e0
    (pyMerge_keys_nodup defaults params) hmem (by simp) hbad
  refine ⟨e, ?_⟩
  unfold translateParams
  rw [he]

/-- Evaluation of `addItem` on a convert-table parameter with no
dependencies. -/
theorem addItem_convert (st : TState) (param ename : String)
    (efn : PVal → Except PyErr (List (String × PVal))) (val : PVal)
    (hu : unsupported.contains param = false)
    (hd : direct.find? (fun kv => kv.1 == param) = none)
    (hc : convert.find? (fun e2 => e2.1 == param) = some (ename, ([], efn))) :
    addItem st param val =
      match efn val with
      | .error e => .error e
      | .ok kvs => .ok ⟨st.processed ++ [param], updateA st.translated kvs⟩ := by
  unfold addItem procParam convApply
  simp only [hu, Bool.false_eq_true, if_false, hd, hc, depsLoop]
  cases hv : efn val with
  | error e => simp [hv]
  | ok kvs => simp [hv]

theorem addItem_season_invalid (st : TState) (v : PVal)
    (h1 : v ≠ .str "winter") (h2 : v ≠ .str "summer") :
    addItem st "season" v = .error (.keyError v) := by
  rw [addItem_convert st "season" "season" seasonFn v rfl rfl rfl]
  rw [seasonFn_invalid v h1 h2]

theorem addItem_surface_invalid (st : TState) (v : PVal)
    (h1 : v ≠ .str "snow") (h2 : v ≠ .str "clear water") (h3 : v ≠ .str "lake water")
    (h4 : v ≠ .str "sea water") (h5 : v ≠ .str "sand") (h6 : v ≠ .str "vegetation")
    (h7 : v ≠ .str "ocean water") :
    addItem st "surface_type" v = .error (.keyError v) := by
  rw [addItem_convert st "surface_type" "surface_type" surfaceFn v rfl rfl rfl]
  rw [surfaceFn_invalid v h1 h2 h3 h4 h5 h6 h7]

theorem addItem_atmosphere_invalid (st : TState) (v : PVal)
    (h1 : v ≠ .str "tropical") (h2 : v ≠ .str "mid-latitude summer")
    (h3 : v ≠ .str "mid-latitude winter") (h4 : v ≠ .str "sub-arctic summer")
    (h5 : v ≠ .str "sub-arctic winter") (h6 : v ≠ .str "us62") :
    addItem st "atmosphere" v = .error (.keyError v) := by
  rw [addItem_convert st "atmosphere" "atmosphere" atmosFn v rfl rfl rfl]
  rw [atmosFn_invalid v h1 h2 h3 h4 h5 h6]

/-- A translation error escapes `run()` identically for every execution
environment: the solver process plays no part in the outcome. -/
theorem runSmarts_translate_error (defaults params : List (String × PVal)) (path : String)
    (env : ExecEnv) (e : PyErr) (h : translateParams defaults params = .error e) :
    runSmarts defaults params path env = .error e := by
  unfold runSmarts
  rw [h]

/-- C6, confirmed: each closed enumeration maps every valid member to its
documented code (season winter→WINTER, summer→SUMMER; surface snow→3,
clear water→2, sand→6, vegetation→17, lake/sea/ocean water→35; atmosphere
tropical→TRL, mid-latitude summer→MLS, mid-latitude winter→MLW, sub-arctic
summer→SAS, sub-arctic winter→SAW, us62→USSA); any value outside the
enumeration makes the conversion, the enclosing `addItem`, and `translate`
itself fail with a lookup error (`KeyError`), and a translation error escapes
`run()` before the solver outcome can play any part. -/
theorem translate_enumerations :
    (seasonFn (.str "winter") = .ok [("SEASON", PVal.str "WINTER")] ∧
     seasonFn (.str "summer") = .ok [("SEASON", PVal.str "SUMMER")]) ∧
    (surfaceFn (.str "snow") = .ok [("IALBDX", PVal.num 3)] ∧
     surfaceFn (.str "clear water") = .ok [("IALBDX", PVal.num 2)] ∧
     surfaceFn (.str "sand") = .ok [("IALBDX", PVal.num 6)] ∧
     surfaceFn (.str "vegetation") = .ok [("IALBDX", PVal.num 17)] ∧
     surfaceFn (.str "lake water") = .ok [("IALBDX", PVal.num 35)] ∧
     surfaceFn (.str "sea water") = .ok [("IALBDX", PVal.num 35)] ∧
     surfaceFn (.str "ocean water") = .ok [("IALBDX", PVal.num 35)]) ∧
    (atmosFn (.str "tropical") = .ok [("ATMOS", PVal.str "TRL")] ∧
     atmosFn (.str "mid-latitude summer") = .ok [("ATMOS", PVal.str "MLS")] ∧
     atmosFn (.str "mid-latitude winter") = .ok [("ATMOS", PVal.str "MLW")] ∧
     atmosFn (.str "sub-arctic summer") = .ok [("ATMOS", PVal.str "SAS")] ∧
     atmosFn (.str "sub-arctic winter") = .ok [("ATMOS", PVal.str "SAW")] ∧
     atmosFn (.str "us62") = .ok [("ATMOS", PVal.str "USSA")]) ∧
    (∀ v : PVal, v ≠ .str "winter" → v ≠ .str "summer" →
      seasonFn v = .error (.keyError v)) ∧
    (∀ v : PVal, v ≠ .str "snow" → v ≠ .str "clear water" → v ≠ .str "lake water" →
      v ≠ .str "sea water" → v ≠ .str "sand" → v ≠ .str "vegetation" →
      v ≠ .str "ocean water" → surfaceFn v = .error (.keyError v)) ∧
    (∀ v : PVal, v ≠ .str "tropical" → v ≠ .str "mid-latitude summer" →
      v ≠ .str "mid-latitude winter" → v ≠ .str "sub-arctic summer" →
      v ≠ .str "sub-arctic winter" → v ≠ .str "us62" →
      atmosFn v = .error (.keyError v)) ∧
    (∀ (st : TState) (v : PVal), v ≠ .str "winter" → v ≠ .str "summer" →
      addItem st "season" v = .error (.keyError v)) ∧
    (∀ (st : TState) (v : PVal), v ≠ .str "snow" → v ≠ .str "clear water" →
      v ≠ .str "lake water" → v ≠ .str "sea water" → v ≠ .str "sand" →
      v ≠ .str "vegetation" → v ≠ .str "ocean water" →
      addItem st "surface_type" v = .error (.keyError v)) ∧
    (∀ (st : TState) (v : PVal), v ≠ .str "tropical" → v ≠ .str "mid-latitude summer" →
      v ≠ .str "mid-latitude winter" → v ≠ .str "sub-arctic summer" →
      v ≠ .str "sub-arctic winter" → v ≠ .str "us62" →
      addItem st "atmosphere" v = .error (.keyError v)) ∧
    (∀ (defaults params : List (String × PVal)) (k : String) (v : PVal) (e0 : PyErr),
      (k, v) ∈ pyMerge defaults params → (∀ st : TState, addItem st k v = .error e0) →
      ∃ e, translateParams defaults params = .error e) ∧
    (∀ (defaults params : List (String × PVal)) (path : String) (env : ExecEnv) (e : PyErr),
      translateParams defaults params = .error e →
      runSmarts defaults params path env = .error e) :=
  ⟨⟨rfl, rfl⟩, ⟨rfl, rfl, rfl, rfl, rfl, rfl, rfl⟩, ⟨rfl, rfl, rfl, rfl, rfl, rfl⟩,
   seasonFn_invalid, surfaceFn_invalid, atmosFn_invalid,
   addItem_season_invalid, addItem_surface_invalid, addItem_atmosphere_invalid,
   translate_fails_of_bad, runSmarts_translate_error⟩

/-- Witness for `translate_enumerations` at out-of-enumeration values. -/
theorem translate_enumerations_witness :
    seasonFn (.str "spring") = .error (.keyError (.str "spring")) ∧
    surfaceFn (.str "grass") = .error (.keyError (.str "grass")) ∧
    atmosFn (.str "mars") = .error (.keyError (.str "mars")) ∧
    addItem ⟨[], []⟩ "season" (.str "spring") = .error (.keyError (.str "spring")) ∧
    (∃ e, translateParams [] [("season", PVal.str "spring")] = .error e ∧
      runSmarts [] [("season", PVal.str "spring")] "w" ⟨0, "", fun _ => []⟩ = .error e) := by
  obtain ⟨_, _, _, hsea, hsurf, hatm, hadd_sea, _, _, hfail, hprop⟩ := translate_enumerations
  refine ⟨hsea _ (by decide) (by decide),
    hsurf _ (by decide) (by decide) (by decide) (by decide) (by decide) (by decide) (by decide),
    hatm _ (by decide) (by decide) (by decide) (by decide) (by decide) (by decide),
    hadd_sea _ _ (by decide) (by decide), ?_⟩
  obtain ⟨e, he⟩ := hfail [] [("season", PVal.str "spring")] "season" (PVal.str "spring")
    (.keyError (.str "spring")) (by decide)
    (fun st => hadd_sea st _ (by decide) (by decide))
  exact ⟨e, he, hprop [] [("season", PVal.str "spring")] "w" ⟨0, "", fun _ => []⟩ e he⟩

/-- One numeric row of the solver's five-column output, in the column order
`names=['wavelength', 'direct_normal', 'diffuse', 'global', 'direct']` of
`SMARTS.spectrum` (the `global` column is called `globalIrr` here because
`global` is reserved).  Text-to-number parsing is abstracted: rows arrive as
exact rationals. -/
structure SpecRow where
  wavelength : ℚ
  direct_normal : ℚ
  diffuse : ℚ
  globalIrr : ℚ
  direct : ℚ
deriving DecidableEq

/-- Column names passed to `read_csv` in `SMARTS.spectrum`. -/
def spectrumColumns : List String :=
  ["wavelength", "direct_normal", "diffuse", "global", "direct"]

/-- Per-row unit normalization of `SMARTS.spectrum`: wavelength divided by
1000 (nm → µm), the four irradiance columns multiplied by 1000. -/
def scaleRow (r : SpecRow) : SpecRow :=
  ⟨r.wavelength / 1000, r.direct_normal * 1000, r.diffuse * 1000,
   r.globalIrr * 1000, r.direct * 1000⟩

/-- `SMARTS.spectrum` parsing: skip exactly one header line (`skiprows=1`),
then normalize each data row. -/
def spectrumOf (fileRows : List SpecRow) : List SpecRow :=
  (fileRows.drop 1).map scaleRow

/-- C7, confirmed: parsing skips exactly one header line, divides every
wavelength by 1000 and multiplies each of the four irradiance columns by
1000; in particular the data row `500  1.0 2.0 3.0 4.0` yields wavelength
`0.5` and irradiance values `1000, 2000, 3000, 4000`. -/
theorem spectrum_units (hdr : SpecRow) (rows : List SpecRow) :
    spectrumOf (hdr :: rows) = rows.map scaleRow ∧
    (∀ r : SpecRow, scaleRow r =
      ⟨r.wavelength / 1000, r.direct_normal * 1000, r.diffuse * 1000,
       r.globalIrr * 1000, r.direct * 1000⟩) ∧
    scaleRow ⟨500, 1, 2, 3, 4⟩ = ⟨1/2, 1000, 2000, 3000, 4000⟩ := by
  refine ⟨rfl, fun r => rfl, ?_⟩
  simp only [scaleRow, SpecRow.mk.injEq]
  norm_num

/-- Trapezoidal rule of `numpy.trapz` over (x, y) sample points:
`Σ (x_{i+1} - x_i) * (y_i + y_{i+1}) / 2`. -/
def trapzQ : List (ℚ × ℚ) → ℚ
  | (x1, y1) :: (x2, y2) :: rest => (x2 - x1) * (y1 + y2) / 2 + trapzQ ((x2, y2) :: rest)
  | _ => 0

/-- Single integrated row of `SMARTS.irradiance`. -/
structure IrrRow where
  direct_normal : ℚ
  diffuse : ℚ
  globalIrr : ℚ
  direct : ℚ
deriving DecidableEq

/-- `SMARTS.irradiance`: integrate each irradiance column independently over
the wavelength index by the trapezoidal rule. -/
def irradianceOf (tbl : List SpecRow) : IrrRow :=
  ⟨trapzQ (tbl.map fun r => (r.wavelength, r.direct_normal)),
   trapzQ (tbl.map fun r => (r.wavelength, r.diffuse)),
   trapzQ (tbl.map fun r => (r.wavelength, r.globalIrr)),
   trapzQ (tbl.map fun r => (r.wavelength, r.direct))⟩

/-- Column names of the result row of `SMARTS.irradiance`
(`columns=data.columns`). -/
def irradianceColumns : List String := ["direct_normal", "diffuse", "global", "direct"]

/-- C8, confirmed: `irradiance()` integrates each irradiance column
independently by the trapezoidal rule and returns one row with the column
names preserved; for a two-row table at wavelengths `a` and `b` with constant
value `v` every column integrates to `v * (b - a)`, hence `100` for
wavelengths 0.5 and 0.6 and constant value 1000. -/
theorem irradiance_trapezoid :
    (∀ a b v : ℚ, irradianceOf [⟨a, v, v, v, v⟩, ⟨b, v, v, v, v⟩] =
      ⟨v * (b - a), v * (b - a), v * (b - a), v * (b - a)⟩) ∧
    irradianceOf [⟨1/2, 1000, 1000, 1000, 1000⟩, ⟨3/5, 1000, 1000, 1000, 1000⟩] =
      ⟨100, 100, 100, 100⟩ ∧
    irradianceColumns = spectrumColumns.drop 1 := by
  refine ⟨?_, ?_, rfl⟩
  · intro a b v
    simp only [irradianceOf, List.map_cons, List.map_nil, trapzQ, IrrRow.mk.injEq]
    refine ⟨by ring, by ring, by ring, by ring⟩
  · simp only [irradianceOf, List.map_cons, List.map_nil, trapzQ, IrrRow.mk.injEq]
    norm_num

theorem except_bind_ok {α β : Type} (a : α) (f : α → Except PyErr β) :
    (Except.ok a >>= f) = f a := rfl

theorem except_bind_err {α β : Type} (e : PyErr) (f : α → Except PyErr β) :
    ((Except.error e : Except PyErr α) >>= f) = Except.error e := rfl

theorem except_pure_bind {α β : Type} (a : α) (f : α → Except PyErr β) :
    ((pure a : Except PyErr α) >>= f) = f a := rfl

theorem except_map_ok {α β : Type} (f : α → β) (a : α) :
    (f <$> (Except.ok a : Except PyErr α)) = Except.ok (f a) := rfl

theorem except_map_err {α β : Type} (f : α → β) (e : PyErr) :
    (f <$> (Except.error e : Except PyErr α)) = Except.error e := rfl

/-- C5, confirmed: formatting a translated parameter set whose IATMOS mode
selector is neither 0 nor 1 fails with the assertion error
`'bad smarts IATMOS (not 0 or 1)'`; with IATMOS = 0 the deck's card-3 line
(index 4) is the surface-condition card built from TAIR, RH, SEASON and TDAY,
and with IATMOS = 1 it is the named-atmosphere card built from ATMOS. -/
theorem cardify_iatmos (d : List (String × PVal)) :
    (∀ c s a hh v, dGet d "COMNT" = .ok c → dGet d "SPR" = .ok s →
      dGet d "ALTIT" = .ok a → dGet d "HEIGHT" = .ok hh → dGet d "IATMOS" = .ok v →
      v ≠ .num 0 → v ≠ .num 1 →
      cardLines d = .error (.assertionError "bad smarts IATMOS (not 0 or 1)")) ∧
    (∀ ls, cardLines d = .ok ls →
      (dGet d "IATMOS" = .ok (.num 0) →
        ∃ t r se td, dGet d "TAIR" = .ok t ∧ dGet d "RH" = .ok r ∧
          dGet d "SEASON" = .ok se ∧ dGet d "TDAY" = .ok td ∧
          ls.get? 4 = some (pvStr t ++ " " ++ pvStr r ++ " '" ++ pvStr se ++ "' " ++ pvStr td)) ∧
      (dGet d "IATMOS" = .ok (.num 1) →
        ∃ am, dGet d "ATMOS" = .ok am ∧ ls.get? 4 = some ("'" ++ pvStr am ++ "'"))) := by
  constructor
  · intro c s a hh v h1 h2 h3 h4 h5 hv0 hv1
    simp only [cardLines, h1, h2, h3, h4, h5, except_bind_ok]
    rw [if_neg hv0, if_neg hv1]
    simp only [except_bind_err]
  · intro ls hok
    simp only [cardLines] at hok
    rcases hC : dGet d "COMNT" with eC | c
    · rw [hC] at hok
      simp [except_bind_err] at hok
    rw [hC] at hok
    simp only [except_bind_ok] at hok
    rcases hS : dGet d "SPR" with eS | s
    · rw [hS] at hok
      simp [except_bind_err] at hok
    rw [hS] at hok
    simp only [except_bind_ok] at hok
    rcases hA : dGet d "ALTIT" with eA | a
    · rw [hA] at hok
      simp [except_bind_err] at hok
    rw [hA] at hok
    simp only [except_bind_ok] at hok
    rcases hH : dGet d "HEIGHT" with eH | hh
    · rw [hH] at hok
      simp [except_bind_err] at hok
    rw [hH] at hok
    simp only [except_bind_ok] at hok
    rcases hI : dGet d "IATMOS" with eI | v
    · rw [hI] at hok
      simp [except_bind_err] at hok
    rw [hI] at hok
    simp only [except_bind_ok] at hok
    by_cases hv0 : v = PVal.num 0
    · subst hv0
      rw [if_pos rfl] at hok
      rcases hT : dGet d "TAIR" with eT | t
      · rw [hT] at hok
        simp [except_bind_err] at hok
      rw [hT] at hok
      simp only [except_bind_ok] at hok
      rcases hR : dGet d "RH" with eR | r
      · rw [hR] at hok
        simp [except_bind_err] at hok
      rw [hR] at hok
      simp only [except_bind_ok] at hok
      rcases hSe : dGet d "SEASON" with eSe | se
      · rw [hSe] at hok
        simp [except_bind_err] at hok
      rw [hSe] at hok
      simp only [except_bind_ok] at hok
      rcases hD : dGet d "TDAY" with eD | td
      · rw [hD] at hok
        simp [except_bind_err] at hok
      rw [hD] at hok
      simp only [except_bind_ok] at hok
      rcases hTl : cardTail d with eTl | tail
      · rw [hTl] at hok
        simp [except_bind_err] at hok
      rw [hTl] at hok
      simp only [except_bind_ok, except_pure_bind] at hok
      cases hok
      constructor
      · intro _
        exact ⟨t, r, se, td, rfl, rfl, rfl, rfl, rfl⟩
      · intro hI1
        simp at hI1
    · by_cases hv1 : v = PVal.num 1
      · subst hv1
        rw [if_neg hv0, if_pos rfl] at hok
        rcases hAt : dGet d "ATMOS" with eAt | am
        · rw [hAt] at hok
          simp [except_bind_err] at hok
        rw [hAt] at hok
        simp only [except_bind_ok] at hok
        rcases hTl : cardTail d with eTl | tail
        · rw [hTl] at hok
          simp [except_bind_err] at hok
        rw [hTl] at hok
        simp only [except_bind_ok, except_pure_bind] at hok
        cases hok
        constructor
        · intro hI0
          simp at hI0
        · intro _
          exact ⟨am, rfl, rfl⟩
      · rw [if_neg hv0, if_neg hv1] at hok
        simp [except_bind_err] at hok

/-- A fully-translated parameter dict with IATMOS = 0 (surface-condition
mode). -/
def cardMode0 : List (String × PVal) :=
  [("COMNT", .str "test"), ("SPR", .num 1013), ("ALTIT", .num 0), ("HEIGHT", .num 0),
   ("IATMOS", .num 0), ("TAIR", .num 20), ("RH", .num 50), ("SEASON", .str "WINTER"),
   ("TDAY", .num 15), ("AbO3", .num (3/10)),
   ("ApCH2O", .num 0), ("ApCh4", .num 0), ("ApCO", .num 0), ("ApHNO2", .num 0),
   ("ApHNO3", .num 0), ("ApNO", .num 0), ("ApNO2", .num 0), ("ApNO3", .num 0),
   ("ApO3", .num 0), ("ApSO2", .num 0),
   ("qCO2", .num 400), ("ALPHA1", .num 1), ("ALPHA2", .num 1), ("OMEGL", .num (9/10)),
   ("GG", .num (7/10)), ("TAU550", .num (1/10)), ("IALBDX", .num 17),
   ("WLMN", .num 280), ("WLMX", .num 4000), ("SUNCOR", .num 1), ("SOLARC", .num 1367),
   ("WPMN", .num 280), ("WPMX", .num 4000), ("INTVL", .num 5),
   ("YEAR", .num 2020), ("MONTH", .num 2), ("DAY", .num 11), ("HOUR", .num 12),
   ("LATIT", .num 44), ("LONGIT", .num 2), ("ZONE", .num 0)]

/-- The same dict with IATMOS = 1 and a named atmosphere shadowing the
mode-0 bindings. -/
def cardMode1 : List (String × PVal) :=
  ("IATMOS", PVal.num 1) :: ("ATMOS", PVal.str "MLW") :: cardMode0

/-- The same dict with the invalid mode IATMOS = 2 shadowing. -/
def cardModeBad : List (String × PVal) :=
  ("IATMOS", PVal.num 2) :: cardMode0

/-- Witness for `cardify_iatmos`: the invalid mode 2 hits the assertion; the
two valid modes emit their respective card-3 line. -/
theorem cardify_iatmos_witness :
    cardLines cardModeBad = .error (.assertionError "bad smarts IATMOS (not 0 or 1)") ∧
    (∃ ls, cardLines cardMode0 = .ok ls ∧
      ls.get? 4 = some (pvStr (PVal.num 20) ++ " " ++ pvStr (PVal.num 50) ++ " '" ++
        pvStr (PVal.str "WINTER") ++ "' " ++ pvStr (PVal.num 15))) ∧
    (∃ ls, cardLines cardMode1 = .ok ls ∧
      ls.get? 4 = some ("'" ++ pvStr (PVal.str "MLW") ++ "'")) := by
  refine ⟨?_, ?_, ?_⟩
  · exact (cardify_iatmos cardModeBad).1 (.str "test") (.num 1013) (.num 0) (.num 0)
      (.num 2) rfl rfl rfl rfl rfl (by decide) (by decide)
  · obtain ⟨ls, hls⟩ : ∃ ls, cardLines cardMode0 = .ok ls := ⟨_, rfl⟩
    obtain ⟨t, r, se, td, ht, hr, hse, htd, hget⟩ := ((cardify_iatmos cardMode0).2 ls hls).1 rfl
    have ht' : t = PVal.num 20 := by
      have he : dGet cardMode0 "TAIR" = Except.ok (PVal.num 20) := rfl
      rw [he] at ht
      exact (Except.ok.inj ht).symm
    have hr' : r = PVal.num 50 := by
      have he : dGet cardMode0 "RH" = Except.ok (PVal.num 50) := rfl
      rw [he] at hr
      exact (Except.ok.inj hr).symm
    have hse' : se = PVal.str "WINTER" := by
      have he : dGet cardMode0 "SEASON" = Except.ok (PVal.str "WINTER") := rfl
      rw [he] at hse
      exact (Except.ok.inj hse).symm
    have htd' : td = PVal.num 15 := by
      have he : dGet cardMode0 "TDAY" = Except.ok (PVal.num 15) := rfl
      rw [he] at htd
      exact (Except.ok.inj htd).symm
    subst ht'
    subst hr'
    subst hse'
    subst htd'
    exact ⟨ls, hls, hget⟩
  · obtain ⟨ls, hls⟩ : ∃ ls, cardLines cardMode1 = .ok ls := ⟨_, rfl⟩
    obtain ⟨am, ham, hget⟩ := ((cardify_iatmos cardMode1).2 ls hls).2 rfl
    have ham' : am = PVal.str "MLW" := by
      have he : dGet cardMode1 "ATMOS" = Except.ok (PVal.str "MLW") := rfl
      rw [he] at ham
      exact (Except.ok.inj ham).symm
    subst ham'
    exact ⟨ls, hls, hget⟩
